import Mathlib

/-!
Verification of the VictoriaMetrics Cloud Terraform provider
(`terraform-provider-victoriametricscloud`) against its natural-language
specification.  The Go sources under `internal/provider` are shallowly
embedded: every resource / data-source operation becomes a pure Lean
function from the decoded plan or prior state plus the result of its single
HTTP client call to an operation outcome (client calls made, error
diagnostics added, state written).  Go strings are modelled as `List Char`,
`types.String` / `types.Int64` nullable Terraform values as `Option`,
unsigned integer casts explicitly.
-/

/-- Go strings, modelled as lists of characters. -/
abbrev GoStr := List Char

/-- A `time.Time` value, identified by its RFC3339 rendering (the only
observation the provider ever makes of a timestamp). -/
structure GoTime where
  rfc3339 : GoStr
deriving DecidableEq, Repr

/-- Model of `t.Format(time.RFC3339)`. -/
def formatRFC3339 (t : GoTime) : GoStr := t.rfc3339

/-- A Go `float64`, identified by its 64-bit pattern; the provider only ever
copies float values, never computes with them. -/
structure GoFloat where
  bits : Nat
deriving DecidableEq, Repr

/-- Model of `types.String.ValueString()` / `types.Int64.ValueInt64()`:
the zero value on null. -/
def valueString (s : Option GoStr) : GoStr := s.getD []

/-- Model of `types.Int64.ValueInt64()`. -/
def valueInt64 (s : Option Int) : Int := s.getD 0

/-- Go cast `uint32(x)` applied to an `int64` value. -/
def uint32OfInt64 (x : Int) : Nat := (x % (2 ^ 32 : Nat)).toNat

/-- Go cast `uint64(x)` applied to an `int64` value. -/
def uint64OfInt64 (x : Int) : Nat := (x % (2 ^ 64 : Nat)).toNat

/-- Go cast `int64(x)` applied to an unsigned value. -/
def int64OfUint (x : Nat) : Int :=
  if x % 2 ^ 64 < 2 ^ 63 then ((x % 2 ^ 64 : Nat) : Int)
  else ((x % 2 ^ 64 : Nat) : Int) - 2 ^ 64

/-- Error diagnostics, one constructor per `AddError` site in the sources. -/
inductive Diag where
  | errorCreatingDeployment
  | errorReadingDeployment
  | errorUpdatingDeployment
  | errorDeletingDeployment
  | errorCreatingAccessToken
  | errorReadingAccessToken
  | updateNotSupported
  | errorDeletingAccessToken
  | errorCreatingRuleFile
  | errorReadingRuleFile
  | errorUpdatingRuleFile
  | errorDeletingRuleFile
  | invalidImportID
  | unableToReadCloudProviders
  | unableToReadRegions
  | unableToReadTiers
  | unableToReadDeployments
  | unableToReadDeployment
  | missingApiKey
  | unableToCreateClient
deriving DecidableEq, Repr

/-- An error value returned by an HTTP client method. -/
structure ApiErr where
  msg : GoStr
deriving DecidableEq, Repr

/-- Whether an `Except` result is a success. -/
def exceptIsOk {ε α : Type} : Except ε α → Bool
  | .ok _ => true
  | .error _ => false

/-- Model of `strings.Split` specialised to a one-character separator
(the provider only ever splits on `"/"`). -/
def goSplit (sep : Char) : GoStr → List GoStr
  | [] => [[]]
  | c :: rest =>
    if c = sep then [] :: goSplit sep rest
    else
      match goSplit sep rest with
      | [] => [[c]]
      | t :: ts => (c :: t) :: ts

/-- The composite identifier `fmt.Sprintf("%s/%s", a, b)`. -/
def compositeID (a b : GoStr) : GoStr := a ++ '/' :: b

/-- Per-component command-line flag lists (`vmcloudapi.DeploymentFlags`). -/
structure DeploymentFlags where
  SingleFlags : List GoStr
  SelectFlags : List GoStr
  StorageFlags : List GoStr
  InsertFlags : List GoStr
deriving DecidableEq, Repr

/-- The request struct built by `deploymentResource.Create`
(`vmcloudapi.DeploymentCreationRequest`), with exactly the fields the
source populates. -/
structure DeploymentCreationRequest where
  Name : GoStr
  Typ : GoStr
  Provider : GoStr
  Region : GoStr
  Tier : Nat
  StorageSize : Nat
  StorageSizeUnit : GoStr
  Retention : Nat
  RetentionUnit : GoStr
  Deduplication : Nat
  DeduplicationUnit : GoStr
  MaintenanceWindow : GoStr
deriving DecidableEq, Repr

/-- The request struct built by `deploymentResource.Update`
(`vmcloudapi.DeploymentUpdateRequest`). -/
structure DeploymentUpdateRequest where
  Name : GoStr
  Tier : Nat
  StorageSize : Nat
  StorageSizeUnit : GoStr
  Retention : Nat
  RetentionUnit : GoStr
  Deduplication : Nat
  DeduplicationUnit : GoStr
  MaintenanceWindow : GoStr
  Flags : DeploymentFlags
deriving DecidableEq, Repr

/-- The request struct built by `accessTokenResource.Create`
(`vmcloudapi.AccessTokenCreateRequest`). -/
structure AccessTokenCreateRequest where
  Typ : GoStr
  Description : GoStr
  TenantID : GoStr
deriving DecidableEq, Repr

/-- One invocation of a method of `vmcloudapi.VMCloudAPIClient`, with the
request data passed to it. -/
inductive ClientCall where
  | createDeployment (req : DeploymentCreationRequest)
  | getDeploymentDetails (id : GoStr)
  | updateDeployment (id : GoStr) (req : DeploymentUpdateRequest)
  | deleteDeployment (id : GoStr)
  | createDeploymentAccessToken (deploymentID : GoStr) (req : AccessTokenCreateRequest)
  | revealDeploymentAccessToken (deploymentID tokenID : GoStr)
  | deleteDeploymentAccessToken (deploymentID tokenID : GoStr)
  | createDeploymentRuleFileContent (deploymentID fileName content : GoStr)
  | getDeploymentRuleFileContent (deploymentID fileName : GoStr)
  | updateDeploymentRuleFileContent (deploymentID fileName content : GoStr)
  | deleteDeploymentRuleFile (deploymentID fileName : GoStr)
  | listCloudProviders
  | listRegions
  | listTiers
  | listDeployments
deriving DecidableEq, Repr

/-- Whether a client method mutates remote state (create / update / delete,
as opposed to the read-only get / reveal / list methods). -/
def ClientCall.isMutating : ClientCall → Bool
  | .createDeployment _ => true
  | .updateDeployment _ _ => true
  | .deleteDeployment _ => true
  | .createDeploymentAccessToken _ _ => true
  | .deleteDeploymentAccessToken _ _ => true
  | .createDeploymentRuleFileContent _ _ _ => true
  | .updateDeploymentRuleFileContent _ _ _ => true
  | .deleteDeploymentRuleFile _ _ => true
  | _ => false

/-- Outcome of one resource / data-source operation: which client methods it
invoked, which error diagnostics it added, and the value passed to
`resp.State.Set` (`none` when the state was never set). -/
structure OpOut (σ : Type) where
  calls : List ClientCall
  errDiags : List Diag
  stateSet : Option σ
deriving DecidableEq, Repr

/-- The `deploymentResourceModel` Terraform schema model. -/
structure deploymentResourceModel where
  ID : Option GoStr
  Name : Option GoStr
  Typ : Option GoStr
  CloudProvider : Option GoStr
  Region : Option GoStr
  Tier : Option Int
  StorageSize : Option Int
  StorageSizeUnit : Option GoStr
  Retention : Option Int
  RetentionUnit : Option GoStr
  Deduplication : Option Int
  DeduplicationUnit : Option GoStr
  MaintenanceWindow : Option GoStr
  SingleFlags : Option (List GoStr)
  SelectFlags : Option (List GoStr)
  StorageFlags : Option (List GoStr)
  InsertFlags : Option (List GoStr)
  Version : Option GoStr
  Status : Option GoStr
  CreatedAt : Option GoStr
  AccessEndpoint : Option GoStr
deriving DecidableEq, Repr

/-- Deployment pricing block of the API response (`deployment.Price`). -/
structure DeploymentPrice where
  ComputeCost : GoFloat
  StorageCost : GoFloat
  TotalCost : GoFloat
deriving DecidableEq, Repr

/-- The deployment object returned by `CreateDeployment`,
`GetDeploymentDetails` and `UpdateDeployment`, with the fields the provider
reads (enum-typed fields carried as their `String()` rendering). -/
structure DeploymentInfo where
  ID : GoStr
  Name : GoStr
  Typ : GoStr
  CloudProvider : GoStr
  Region : GoStr
  Tier : Nat
  RetentionValue : Nat
  RetentionUnit : GoStr
  DeduplicationValue : Nat
  DeduplicationUnit : GoStr
  MaintenanceWindow : GoStr
  Version : GoStr
  Status : GoStr
  CreatedAt : GoTime
  AccessEndpoint : GoStr
  StorageSizeGb : Nat
  Price : DeploymentPrice
deriving DecidableEq, Repr

/-- The `DeploymentCreationRequest` marshalled from the plan by
`deploymentResource.Create` (source lines 320-333): the flag lists of the
plan are not part of it. -/
def buildDeploymentCreationRequest (plan : deploymentResourceModel) :
    DeploymentCreationRequest where
  Name := valueString plan.Name
  Typ := valueString plan.Typ
  Provider := valueString plan.CloudProvider
  Region := valueString plan.Region
  Tier := uint32OfInt64 (valueInt64 plan.Tier)
  StorageSize := uint64OfInt64 (valueInt64 plan.StorageSize)
  StorageSizeUnit := valueString plan.StorageSizeUnit
  Retention := uint32OfInt64 (valueInt64 plan.Retention)
  RetentionUnit := valueString plan.RetentionUnit
  Deduplication := uint32OfInt64 (valueInt64 plan.Deduplication)
  DeduplicationUnit := valueString plan.DeduplicationUnit
  MaintenanceWindow := valueString plan.MaintenanceWindow

/-- Flag-list preparation in `deploymentResource.Update`: start from empty
lists, overwrite from the plan when the plan attribute is non-null. -/
def resolveFlags (o : Option (List GoStr)) : List GoStr := o.getD []

/-- The `DeploymentUpdateRequest` marshalled from the plan by
`deploymentResource.Update` (source lines 445-456). -/
def buildDeploymentUpdateRequest (plan : deploymentResourceModel) :
    DeploymentUpdateRequest where
  Name := valueString plan.Name
  Tier := uint32OfInt64 (valueInt64 plan.Tier)
  StorageSize := uint64OfInt64 (valueInt64 plan.StorageSize)
  StorageSizeUnit := valueString plan.StorageSizeUnit
  Retention := uint32OfInt64 (valueInt64 plan.Retention)
  RetentionUnit := valueString plan.RetentionUnit
  Deduplication := uint32OfInt64 (valueInt64 plan.Deduplication)
  DeduplicationUnit := valueString plan.DeduplicationUnit
  MaintenanceWindow := valueString plan.MaintenanceWindow
  Flags :=
    { SingleFlags := resolveFlags plan.SingleFlags
      SelectFlags := resolveFlags plan.SelectFlags
      StorageFlags := resolveFlags plan.StorageFlags
      InsertFlags := resolveFlags plan.InsertFlags }

/-- `deploymentResource.Create`: one `CreateDeployment` call; on failure an
error diagnostic and no state write; on success the plan with the derived
fields overwritten from the response. -/
def deploymentCreate (plan : deploymentResourceModel)
    (r : Except ApiErr DeploymentInfo) : OpOut deploymentResourceModel :=
  let req := buildDeploymentCreationRequest plan
  match r with
  | .error _ =>
    { calls := [.createDeployment req]
      errDiags := [.errorCreatingDeployment]
      stateSet := none }
  | .ok d =>
    { calls := [.createDeployment req]
      errDiags := []
      stateSet := some { plan with
        ID := some d.ID
        Version := some d.Version
        Status := some d.Status
        CreatedAt := some (formatRFC3339 d.CreatedAt)
        AccessEndpoint := some d.AccessEndpoint } }

/-- `deploymentResource.Read`: one `GetDeploymentDetails` call; on success
every field is refreshed from the response, and `storage_size` is derived
from `StorageSizeGb` by the unit switch of source lines 392-400. -/
def deploymentRead (state : deploymentResourceModel)
    (r : Except ApiErr DeploymentInfo) : OpOut deploymentResourceModel :=
  match r with
  | .error _ =>
    { calls := [.getDeploymentDetails (valueString state.ID)]
      errDiags := [.errorReadingDeployment]
      stateSet := none }
  | .ok d =>
    let s := { state with
      Name := some d.Name
      Typ := some d.Typ
      CloudProvider := some d.CloudProvider
      Region := some d.Region
      Tier := some (int64OfUint d.Tier)
      Retention := some (int64OfUint d.RetentionValue)
      RetentionUnit := some d.RetentionUnit
      Deduplication := some (int64OfUint d.DeduplicationValue)
      DeduplicationUnit := some d.DeduplicationUnit
      MaintenanceWindow := some d.MaintenanceWindow
      Version := some d.Version
      Status := some d.Status
      CreatedAt := some (formatRFC3339 d.CreatedAt)
      AccessEndpoint := some d.AccessEndpoint }
    let s2 :=
      match state.StorageSizeUnit with
      | none => s
      | some u =>
        if u = ['G', 'B'] then
          { s with StorageSize := some (int64OfUint d.StorageSizeGb) }
        else if u = ['T', 'B'] then
          { s with StorageSize := some (int64OfUint (d.StorageSizeGb / 1024)) }
        else s
    { calls := [.getDeploymentDetails (valueString state.ID)]
      errDiags := []
      stateSet := some s2 }

/-- `deploymentResource.Update`: one `UpdateDeployment` call; on success only
`version`, `status` and `access_endpoint` are overwritten from the
response. -/
def deploymentUpdate (plan : deploymentResourceModel)
    (r : Except ApiErr DeploymentInfo) : OpOut deploymentResourceModel :=
  let req := buildDeploymentUpdateRequest plan
  match r with
  | .error _ =>
    { calls := [.updateDeployment (valueString plan.ID) req]
      errDiags := [.errorUpdatingDeployment]
      stateSet := none }
  | .ok d =>
    { calls := [.updateDeployment (valueString plan.ID) req]
      errDiags := []
      stateSet := some { plan with
        Version := some d.Version
        Status := some d.Status
        AccessEndpoint := some d.AccessEndpoint } }

/-- `deploymentResource.Delete`: one `DeleteDeployment` call; the state is
never written (on success the framework removes the resource). -/
def deploymentDelete (state : deploymentResourceModel)
    (r : Except ApiErr Unit) : OpOut deploymentResourceModel :=
  match r with
  | .error _ =>
    { calls := [.deleteDeployment (valueString state.ID)]
      errDiags := [.errorDeletingDeployment]
      stateSet := none }
  | .ok _ =>
    { calls := [.deleteDeployment (valueString state.ID)]
      errDiags := []
      stateSet := none }

/-- `deploymentResource.ImportState` (`ImportStatePassthroughID`): the import
identifier is stored verbatim as the `id` attribute. -/
def deploymentImportState (id : GoStr) : OpOut GoStr :=
  { calls := [], errDiags := [], stateSet := some id }

/-- The `accessTokenResourceModel` Terraform schema model. -/
structure accessTokenResourceModel where
  ID : Option GoStr
  DeploymentID : Option GoStr
  Typ : Option GoStr
  Description : Option GoStr
  TenantID : Option GoStr
  Secret : Option GoStr
  CreatedBy : Option GoStr
  CreatedAt : Option GoStr
  LastUsedAt : Option GoStr
deriving DecidableEq, Repr

/-- The token object returned by `CreateDeploymentAccessToken` and
`RevealDeploymentAccessToken` (`LastUsedAt` is a nullable pointer in the
API response). -/
structure AccessTokenInfo where
  ID : GoStr
  Typ : GoStr
  Description : GoStr
  TenantID : GoStr
  Secret : GoStr
  CreatedBy : GoStr
  CreatedAt : GoTime
  LastUsedAt : Option GoTime
deriving DecidableEq, Repr

/-- The `AccessTokenCreateRequest` marshalled from the plan by
`accessTokenResource.Create` (source lines 151-158): `TenantID` keeps its
zero value when the plan attribute is null. -/
def buildAccessTokenCreateRequest (plan : accessTokenResourceModel) :
    AccessTokenCreateRequest where
  Typ := valueString plan.Typ
  Description := valueString plan.Description
  TenantID :=
    match plan.TenantID with
    | some t => t
    | none => []

/-- `accessTokenResource.Create`: one `CreateDeploymentAccessToken` call; on
success the derived fields are overwritten from the response, and
`last_used_at` is overwritten only when the response carries a last-use
time. -/
def accessTokenCreate (plan : accessTokenResourceModel)
    (r : Except ApiErr AccessTokenInfo) : OpOut accessTokenResourceModel :=
  let req := buildAccessTokenCreateRequest plan
  match r with
  | .error _ =>
    { calls := [.createDeploymentAccessToken (valueString plan.DeploymentID) req]
      errDiags := [.errorCreatingAccessToken]
      stateSet := none }
  | .ok t =>
    { calls := [.createDeploymentAccessToken (valueString plan.DeploymentID) req]
      errDiags := []
      stateSet := some { plan with
        ID := some t.ID
        Secret := some t.Secret
        CreatedBy := some t.CreatedBy
        CreatedAt := some (formatRFC3339 t.CreatedAt)
        LastUsedAt :=
          match t.LastUsedAt with
          | some ts => some (formatRFC3339 ts)
          | none => plan.LastUsedAt } }

/-- `accessTokenResource.Read`: one `RevealDeploymentAccessToken` call; on
success `last_used_at` is set to the formatted value or to null, while
`tenant_id` is overwritten only when the response tenant is non-empty. -/
def accessTokenRead (state : accessTokenResourceModel)
    (r : Except ApiErr AccessTokenInfo) : OpOut accessTokenResourceModel :=
  match r with
  | .error _ =>
    { calls := [.revealDeploymentAccessToken (valueString state.DeploymentID)
        (valueString state.ID)]
      errDiags := [.errorReadingAccessToken]
      stateSet := none }
  | .ok t =>
    { calls := [.revealDeploymentAccessToken (valueString state.DeploymentID)
        (valueString state.ID)]
      errDiags := []
      stateSet := some { state with
        Typ := some t.Typ
        Description := some t.Description
        Secret := some t.Secret
        CreatedBy := some t.CreatedBy
        CreatedAt := some (formatRFC3339 t.CreatedAt)
        LastUsedAt :=
          match t.LastUsedAt with
          | some ts => some (formatRFC3339 ts)
          | none => none
        TenantID :=
          if t.TenantID ≠ [] then some t.TenantID else state.TenantID } }

/-- `accessTokenResource.Update`: unconditionally adds the
"Update not supported" error diagnostic, calls no client method and never
writes the state. -/
def accessTokenUpdate (_plan : accessTokenResourceModel) :
    OpOut accessTokenResourceModel :=
  { calls := [], errDiags := [.updateNotSupported], stateSet := none }

/-- `accessTokenResource.Delete`: one `DeleteDeploymentAccessToken` call;
the state is never written. -/
def accessTokenDelete (state : accessTokenResourceModel)
    (r : Except ApiErr Unit) : OpOut accessTokenResourceModel :=
  match r with
  | .error _ =>
    { calls := [.deleteDeploymentAccessToken (valueString state.DeploymentID)
        (valueString state.ID)]
      errDiags := [.errorDeletingAccessToken]
      stateSet := none }
  | .ok _ =>
    { calls := [.deleteDeploymentAccessToken (valueString state.DeploymentID)
        (valueString state.ID)]
      errDiags := []
      stateSet := none }

/-- `accessTokenResource.ImportState` (source lines 255-268): split
the import identifier on "/" and reject it unless that yields exactly two
non-empty parts; on success set `deployment_id` and `id`. -/
def accessTokenImportState (id : GoStr) : OpOut (GoStr × GoStr) :=
  let parts := goSplit '/' id
  if parts.length ≠ 2 ∨ parts.headD [] = [] ∨ (parts.drop 1).headD [] = [] then
    { calls := [], errDiags := [.invalidImportID], stateSet := none }
  else
    { calls := [], errDiags := []
      stateSet := some (parts.headD [], (parts.drop 1).headD []) }

/-- The `ruleFileResourceModel` Terraform schema model. -/
structure ruleFileResourceModel where
  ID : Option GoStr
  DeploymentID : Option GoStr
  FileName : Option GoStr
  Content : Option GoStr
deriving DecidableEq, Repr

/-- `ruleFileResource.Create`: one `CreateDeploymentRuleFileContent` call;
on success the composite `id` attribute `deployment_id/file_name` is set. -/
def ruleFileCreate (plan : ruleFileResourceModel)
    (r : Except ApiErr Unit) : OpOut ruleFileResourceModel :=
  match r with
  | .error _ =>
    { calls := [.createDeploymentRuleFileContent (valueString plan.DeploymentID)
        (valueString plan.FileName) (valueString plan.Content)]
      errDiags := [.errorCreatingRuleFile]
      stateSet := none }
  | .ok _ =>
    { calls := [.createDeploymentRuleFileContent (valueString plan.DeploymentID)
        (valueString plan.FileName) (valueString plan.Content)]
      errDiags := []
      stateSet := some { plan with
        ID := some (compositeID (valueString plan.DeploymentID)
          (valueString plan.FileName)) } }

/-- `ruleFileResource.Read`: one `GetDeploymentRuleFileContent` call; on
success only `content` is refreshed. -/
def ruleFileRead (state : ruleFileResourceModel)
    (r : Except ApiErr GoStr) : OpOut ruleFileResourceModel :=
  match r with
  | .error _ =>
    { calls := [.getDeploymentRuleFileContent (valueString state.DeploymentID)
        (valueString state.FileName)]
      errDiags := [.errorReadingRuleFile]
      stateSet := none }
  | .ok content =>
    { calls := [.getDeploymentRuleFileContent (valueString state.DeploymentID)
        (valueString state.FileName)]
      errDiags := []
      stateSet := some { state with Content := some content } }

/-- `ruleFileResource.Update`: one `UpdateDeploymentRuleFileContent` call;
on success the plan is written back unchanged. -/
def ruleFileUpdate (plan : ruleFileResourceModel)
    (r : Except ApiErr Unit) : OpOut ruleFileResourceModel :=
  match r with
  | .error _ =>
    { calls := [.updateDeploymentRuleFileContent (valueString plan.DeploymentID)
        (valueString plan.FileName) (valueString plan.Content)]
      errDiags := [.errorUpdatingRuleFile]
      stateSet := none }
  | .ok _ =>
    { calls := [.updateDeploymentRuleFileContent (valueString plan.DeploymentID)
        (valueString plan.FileName) (valueString plan.Content)]
      errDiags := []
      stateSet := some plan }

/-- `ruleFileResource.Delete`: one `DeleteDeploymentRuleFile` call; the
state is never written. -/
def ruleFileDelete (state : ruleFileResourceModel)
    (r : Except ApiErr Unit) : OpOut ruleFileResourceModel :=
  match r with
  | .error _ =>
    { calls := [.deleteDeploymentRuleFile (valueString state.DeploymentID)
        (valueString state.FileName)]
      errDiags := [.errorDeletingRuleFile]
      stateSet := none }
  | .ok _ =>
    { calls := [.deleteDeploymentRuleFile (valueString state.DeploymentID)
        (valueString state.FileName)]
      errDiags := []
      stateSet := none }

/-- `ruleFileResource.ImportState` (source lines 735-749): split the import
identifier on "/" and reject it unless that yields exactly two non-empty
parts; on success set `deployment_id`, `file_name` and `id`. -/
def ruleFileImportState (id : GoStr) : OpOut (GoStr × GoStr × GoStr) :=
  let parts := goSplit '/' id
  if parts.length ≠ 2 ∨ parts.headD [] = [] ∨ (parts.drop 1).headD [] = [] then
    { calls := [], errDiags := [.invalidImportID], stateSet := none }
  else
    { calls := [], errDiags := []
      stateSet := some (parts.headD [], (parts.drop 1).headD [], id) }

/-- A cloud provider entry of the `ListCloudProviders` response (its typed
`ID` carried as the `String()` rendering used by the source). -/
structure CloudProviderInfo where
  ID : GoStr
  URL : GoStr
deriving DecidableEq, Repr

/-- The nested `cloudProviderModel` state element. -/
structure cloudProviderModel where
  ID : Option GoStr
  URL : Option GoStr
deriving DecidableEq, Repr

/-- Element mapping of `cloudProvidersDataSource.Read` (source lines 102-108). -/
def cloudProviderModelOfInfo (p : CloudProviderInfo) : cloudProviderModel where
  ID := some p.ID
  URL := some p.URL

/-- `cloudProvidersDataSource.Read`: one `ListCloudProviders` call; on
success the state list mirrors the response in order. -/
def cloudProvidersRead (r : Except ApiErr (List CloudProviderInfo)) :
    OpOut (List cloudProviderModel) :=
  match r with
  | .error _ =>
    { calls := [.listCloudProviders]
      errDiags := [.unableToReadCloudProviders]
      stateSet := none }
  | .ok ps =>
    { calls := [.listCloudProviders]
      errDiags := []
      stateSet := some (ps.map cloudProviderModelOfInfo) }

/-- A region entry of the `ListRegions` response. -/
structure RegionInfo where
  Name : GoStr
  CloudProvider : GoStr
deriving DecidableEq, Repr

/-- The nested `regionModel` state element. -/
structure regionModel where
  Name : Option GoStr
  CloudProvider : Option GoStr
deriving DecidableEq, Repr

/-- Element mapping of `regionsDataSource.Read` (source lines 102-107). -/
def regionModelOfInfo (p : RegionInfo) : regionModel where
  Name := some p.Name
  CloudProvider := some p.CloudProvider

/-- `regionsDataSource.Read`: one `ListRegions` call; on success the state
list mirrors the response in order. -/
def regionsRead (r : Except ApiErr (List RegionInfo)) :
    OpOut (List regionModel) :=
  match r with
  | .error _ =>
    { calls := [.listRegions]
      errDiags := [.unableToReadRegions]
      stateSet := none }
  | .ok rs =>
    { calls := [.listRegions]
      errDiags := []
      stateSet := some (rs.map regionModelOfInfo) }

/-- A tier entry of the `ListTiers` response. -/
structure TierInfo where
  ID : Nat
  Typ : GoStr
  CloudProvider : GoStr
  Name : GoStr
  ComputeCostPerHour : GoFloat
  IngestionRate : Nat
  ActiveTimeSeries : Nat
  NewSeriesOver24h : Nat
  DatapointsReadRate : Nat
  SeriesReadPerQuery : Nat
  AccessTokenConcurrentRequests : Nat
deriving DecidableEq, Repr

/-- The nested `tierModel` state element. -/
structure tierModel where
  ID : Option Int
  Typ : Option GoStr
  CloudProvider : Option GoStr
  Name : Option GoStr
  ComputeCostPerHour : Option GoFloat
  IngestionRate : Option Int
  ActiveTimeSeries : Option Int
  NewSeriesOver24h : Option Int
  DatapointsReadRate : Option Int
  SeriesReadPerQuery : Option Int
  AccessTokenConcurrentRequests : Option Int
deriving DecidableEq, Repr

/-- Element mapping of `tiersDataSource.Read` (source lines 351-365). -/
def tierModelOfInfo (t : TierInfo) : tierModel where
  ID := some (int64OfUint t.ID)
  Typ := some t.Typ
  CloudProvider := some t.CloudProvider
  Name := some t.Name
  ComputeCostPerHour := some t.ComputeCostPerHour
  IngestionRate := some (int64OfUint t.IngestionRate)
  ActiveTimeSeries := some (int64OfUint t.ActiveTimeSeries)
  NewSeriesOver24h := some (int64OfUint t.NewSeriesOver24h)
  DatapointsReadRate := some (int64OfUint t.DatapointsReadRate)
  SeriesReadPerQuery := some (int64OfUint t.SeriesReadPerQuery)
  AccessTokenConcurrentRequests := some (int64OfUint t.AccessTokenConcurrentRequests)

/-- `tiersDataSource.Read`: one `ListTiers` call; on success the state list
mirrors the response in order. -/
def tiersRead (r : Except ApiErr (List TierInfo)) : OpOut (List tierModel) :=
  match r with
  | .error _ =>
    { calls := [.listTiers]
      errDiags := [.unableToReadTiers]
      stateSet := none }
  | .ok ts =>
    { calls := [.listTiers]
      errDiags := []
      stateSet := some (ts.map tierModelOfInfo) }

/-- A deployment summary entry of the `ListDeployments` response. -/
structure DeploymentSummary where
  ID : GoStr
  Name : GoStr
  Typ : GoStr
  Tier : Nat
  Version : GoStr
  CloudProvider : GoStr
  Region : GoStr
  Status : GoStr
  CreatedAt : GoTime
deriving DecidableEq, Repr

/-- The nested `deploymentSummaryModel` state element. -/
structure deploymentSummaryModel where
  ID : Option GoStr
  Name : Option GoStr
  Typ : Option GoStr
  Tier : Option Int
  Version : Option GoStr
  CloudProvider : Option GoStr
  Region : Option GoStr
  Status : Option GoStr
  CreatedAt : Option GoStr
deriving DecidableEq, Repr

/-- Element mapping of `deploymentsDataSource.Read` (source lines 140-150). -/
def deploymentSummaryModelOfInfo (d : DeploymentSummary) : deploymentSummaryModel where
  ID := some d.ID
  Name := some d.Name
  Typ := some d.Typ
  Tier := some (int64OfUint d.Tier)
  Version := some d.Version
  CloudProvider := some d.CloudProvider
  Region := some d.Region
  Status := some d.Status
  CreatedAt := some (formatRFC3339 d.CreatedAt)

/-- `deploymentsDataSource.Read`: one `ListDeployments` call; on success the
state list mirrors the response in order. -/
def deploymentsRead (r : Except ApiErr (List DeploymentSummary)) :
    OpOut (List deploymentSummaryModel) :=
  match r with
  | .error _ =>
    { calls := [.listDeployments]
      errDiags := [.unableToReadDeployments]
      stateSet := none }
  | .ok ds =>
    { calls := [.listDeployments]
      errDiags := []
      stateSet := some (ds.map deploymentSummaryModelOfInfo) }

/-- The `deploymentDataSourceModel` state of the single-deployment data
source. -/
structure deploymentDataSourceModel where
  ID : Option GoStr
  Name : Option GoStr
  Typ : Option GoStr
  CloudProvider : Option GoStr
  Region : Option GoStr
  Tier : Option Int
  Retention : Option Int
  RetentionUnit : Option GoStr
  Deduplication : Option Int
  DeduplicationUnit : Option GoStr
  MaintenanceWindow : Option GoStr
  Version : Option GoStr
  Status : Option GoStr
  CreatedAt : Option GoStr
  AccessEndpoint : Option GoStr
  StorageSizeGb : Option Int
  ComputeCost : Option GoFloat
  StorageCost : Option GoFloat
  TotalCost : Option GoFloat
deriving DecidableEq, Repr

/-- `deploymentDataSource.Read`: one `GetDeploymentDetails` call keyed by
the configured `id`; on success every field is mapped from the response. -/
def deploymentDataSourceRead (config : deploymentDataSourceModel)
    (r : Except ApiErr DeploymentInfo) : OpOut deploymentDataSourceModel :=
  match r with
  | .error _ =>
    { calls := [.getDeploymentDetails (valueString config.ID)]
      errDiags := [.unableToReadDeployment]
      stateSet := none }
  | .ok d =>
    { calls := [.getDeploymentDetails (valueString config.ID)]
      errDiags := []
      stateSet := some { config with
        Name := some d.Name
        Typ := some d.Typ
        CloudProvider := some d.CloudProvider
        Region := some d.Region
        Tier := some (int64OfUint d.Tier)
        Retention := some (int64OfUint d.RetentionValue)
        RetentionUnit := some d.RetentionUnit
        Deduplication := some (int64OfUint d.DeduplicationValue)
        DeduplicationUnit := some d.DeduplicationUnit
        MaintenanceWindow := some d.MaintenanceWindow
        Version := some d.Version
        Status := some d.Status
        CreatedAt := some (formatRFC3339 d.CreatedAt)
        AccessEndpoint := some d.AccessEndpoint
        StorageSizeGb := some (int64OfUint d.StorageSizeGb)
        ComputeCost := some d.Price.ComputeCost
        StorageCost := some d.Price.StorageCost
        TotalCost := some d.Price.TotalCost } }

/-- An option passed to the `vmcloudapi.New` client constructor. -/
inductive ClientOption where
  | withBaseURL (url : GoStr)
deriving DecidableEq, Repr

/-- Outcome of `victoriametricsCloudProvider.Configure`: diagnostics added,
the arguments passed to the `vmcloudapi.New` constructor (`none` when it
was never invoked), and whether the client handle was stored for resources
and data sources. -/
structure ConfigureOut where
  errDiags : List Diag
  newCall : Option (GoStr × List ClientOption)
  clientSet : Bool
deriving DecidableEq, Repr

/-- Resolution of one configuration value against its environment variable
(source lines 80-89): the environment value, overridden by the
configuration attribute whenever that attribute is non-null. -/
def resolveConfig (cfg : Option GoStr) (env : GoStr) : GoStr :=
  match cfg with
  | some v => v
  | none => env

/-- `victoriametricsCloudProvider.Configure` (source lines 69-121): resolve
`api_key` and `base_url`, reject an empty api key, otherwise construct the
client, passing `WithBaseURL` exactly when the resolved base URL is
non-empty.  `r` is the result of the `vmcloudapi.New` call. -/
def providerConfigure (cfgApiKey cfgBaseURL : Option GoStr)
    (envApiKey envBaseURL : GoStr) (r : Except ApiErr Unit) : ConfigureOut :=
  let apiKey := resolveConfig cfgApiKey envApiKey
  let baseURL := resolveConfig cfgBaseURL envBaseURL
  if apiKey = [] then
    { errDiags := [.missingApiKey], newCall := none, clientSet := false }
  else
    let opts := if baseURL = [] then [] else [ClientOption.withBaseURL baseURL]
    match r with
    | .error _ =>
      { errDiags := [.unableToCreateClient]
        newCall := some (apiKey, opts)
        clientSet := false }
    | .ok _ =>
      { errDiags := []
        newCall := some (apiKey, opts)
        clientSet := true }

/-- Whether a `WithBaseURL` option appears among the constructor options of
a Configure outcome. -/
def ConfigureOut.passesWithBaseURL (o : ConfigureOut) : Bool :=
  match o.newCall with
  | some (_, opts) => opts.any (fun c => match c with | .withBaseURL _ => true)
  | none => false

/-- A plan modifier attached to a schema attribute. -/
inductive PlanModifier where
  | useStateForUnknown
  | requiresReplace
deriving DecidableEq, Repr

/-- One attribute of a resource schema, with the properties relevant here. -/
structure SchemaAttr where
  attrName : GoStr
  required : Bool
  computed : Bool
  optionalAttr : Bool
  sensitive : Bool
  planModifiers : List PlanModifier
deriving DecidableEq, Repr

/-- The access-token resource schema (source lines 55-119): every plan
modifier in it is `UseStateForUnknown`; no attribute carries
`RequiresReplace`. -/
def accessTokenSchemaAttrs : List SchemaAttr :=
  [ { attrName := ("id").data, required := false, computed := true,
      optionalAttr := false, sensitive := false,
      planModifiers := [.useStateForUnknown] },
    { attrName := ("deployment_id").data, required := true, computed := false,
      optionalAttr := false, sensitive := false,
      planModifiers := [.useStateForUnknown] },
    { attrName := ("type").data, required := true, computed := false,
      optionalAttr := false, sensitive := false,
      planModifiers := [.useStateForUnknown] },
    { attrName := ("description").data, required := true, computed := false,
      optionalAttr := false, sensitive := false,
      planModifiers := [.useStateForUnknown] },
    { attrName := ("tenant_id").data, required := false, computed := false,
      optionalAttr := true, sensitive := false,
      planModifiers := [.useStateForUnknown] },
    { attrName := ("secret").data, required := false, computed := true,
      optionalAttr := false, sensitive := true,
      planModifiers := [.useStateForUnknown] },
    { attrName := ("created_by").data, required := false, computed := true,
      optionalAttr := false, sensitive := false,
      planModifiers := [] },
    { attrName := ("created_at").data, required := false, computed := true,
      optionalAttr := false, sensitive := false,
      planModifiers := [.useStateForUnknown] },
    { attrName := ("last_used_at").data, required := false, computed := true,
      optionalAttr := false, sensitive := false,
      planModifiers := [] } ]

/-- The rule-file resource schema (source lines 553-584): the key attributes
`deployment_id` and `file_name` carry `RequiresReplace`. -/
def ruleFileSchemaAttrs : List SchemaAttr :=
  [ { attrName := ("id").data, required := false, computed := true,
      optionalAttr := false, sensitive := false,
      planModifiers := [.useStateForUnknown] },
    { attrName := ("deployment_id").data, required := true, computed := false,
      optionalAttr := false, sensitive := false,
      planModifiers := [.requiresReplace] },
    { attrName := ("file_name").data, required := true, computed := false,
      optionalAttr := false, sensitive := false,
      planModifiers := [.requiresReplace] },
    { attrName := ("content").data, required := true, computed := false,
      optionalAttr := false, sensitive := false,
      planModifiers := [] } ]

/-- The property that an import identifier splits on "/" into exactly two
non-empty parts (the spec's wording for a well-formed composite ID). -/
def twoNonEmptyParts (id : GoStr) : Prop :=
  ∃ p q, goSplit '/' id = [p, q] ∧ p ≠ [] ∧ q ≠ []

/-- Single-call atomicity of an operation: at most one client call; on a
failed call an error diagnostic is added and the state is not set; the
state is set only on success. -/
def atomicOp {π α σ : Type} (f : π → Except ApiErr α → OpOut σ) : Prop :=
  ∀ p r, (f p r).calls.length ≤ 1 ∧
    (exceptIsOk r = false → (f p r).errDiags ≠ [] ∧ (f p r).stateSet = none) ∧
    ((f p r).stateSet.isSome = true → exceptIsOk r = true)

/-- The property that an operation produces error diagnostics only when its
client call failed (no locally generated errors). -/
def apiErrorOnly {π α σ : Type} (f : π → Except ApiErr α → OpOut σ) : Prop :=
  ∀ p r, (f p r).errDiags ≠ [] → exceptIsOk r = false

/-- An all-null deployment plan, used as a concrete base value. -/
def emptyDeploymentPlan : deploymentResourceModel where
  ID := none
  Name := none
  Typ := none
  CloudProvider := none
  Region := none
  Tier := none
  StorageSize := none
  StorageSizeUnit := none
  Retention := none
  RetentionUnit := none
  Deduplication := none
  DeduplicationUnit := none
  MaintenanceWindow := none
  SingleFlags := none
  SelectFlags := none
  StorageFlags := none
  InsertFlags := none
  Version := none
  Status := none
  CreatedAt := none
  AccessEndpoint := none

/-- A concrete deployment API response with 2048 GB of storage. -/
def sampleDeploymentInfo : DeploymentInfo where
  ID := ['d', '1']
  Name := ['n']
  Typ := []
  CloudProvider := []
  Region := []
  Tier := 0
  RetentionValue := 0
  RetentionUnit := []
  DeduplicationValue := 0
  DeduplicationUnit := []
  MaintenanceWindow := []
  Version := []
  Status := []
  CreatedAt := { rfc3339 := [] }
  AccessEndpoint := []
  StorageSizeGb := 2048
  Price := { ComputeCost := { bits := 0 }, StorageCost := { bits := 0 },
             TotalCost := { bits := 0 } }

theorem goSplit_of_no_sep (sep : Char) (a : GoStr) (h : sep ∉ a) :
    goSplit sep a = [a] := by
  induction a with
  | nil => rfl
  | cons c cs ih =>
    have hc : ¬ c = sep := fun e => h (e ▸ List.mem_cons_self c cs)
    have hcs : sep ∉ cs := fun m => h (List.mem_cons_of_mem c m)
    simp only [goSplit, if_neg hc, ih hcs]

theorem goSplit_append_sep (sep : Char) (a rest : GoStr) (h : sep ∉ a) :
    goSplit sep (a ++ sep :: rest) = a :: goSplit sep rest := by
  induction a with
  | nil => simp [goSplit]
  | cons c cs ih =>
    have hc : ¬ c = sep := fun e => h (e ▸ List.mem_cons_self c cs)
    have hcs : sep ∉ cs := fun m => h (List.mem_cons_of_mem c m)
    simp only [List.cons_append, goSplit, if_neg hc, List.append_eq, ih hcs]

theorem goSplit_compositeID (a b : GoStr) (ha : '/' ∉ a) (hb : '/' ∉ b) :
    goSplit '/' (compositeID a b) = [a, b] := by
  unfold compositeID
  rw [goSplit_append_sep '/' a b ha, goSplit_of_no_sep '/' b hb]

theorem int64OfUint_of_lt {x : Nat} (h : x < 2 ^ 63) :
    int64OfUint x = (x : Int) := by
  have h64 : x < 2 ^ 64 := lt_trans h (by norm_num)
  unfold int64OfUint
  rw [Nat.mod_eq_of_lt h64, if_pos h]

theorem parts_shape (l : List GoStr) :
    (l.length = 2 ∧ l.headD [] ≠ [] ∧ (l.drop 1).headD [] ≠ []) ↔
      ∃ p q, l = [p, q] ∧ p ≠ [] ∧ q ≠ [] := by
  match l with
  | [] => simp
  | [a] => simp
  | [a, b] =>
    constructor
    · rintro ⟨-, ha, hb⟩
      exact ⟨a, b, rfl, ha, hb⟩
    · rintro ⟨p, q, he, hp, hq⟩
      injection he with h1 he2
      injection he2 with h2 h3
      subst h1; subst h2
      exact ⟨rfl, hp, hq⟩
  | a :: b :: c :: t =>
    constructor
    · rintro ⟨hl, -⟩
      simp at hl
    · rintro ⟨p, q, he, -⟩
      simp at he

/-- C1: the claim says the `DeploymentCreationRequest` contains the value of
every user-configured plan attribute, including the flag lists.  It does
not: two plans differing only in `single_flags` marshal to the same
creation request. -/
theorem createRequest_ignores_flags :
    buildDeploymentCreationRequest
        { emptyDeploymentPlan with SingleFlags := some [['x']] } =
      buildDeploymentCreationRequest emptyDeploymentPlan ∧
    ({ emptyDeploymentPlan with SingleFlags := some [['x']] }
        : deploymentResourceModel).SingleFlags ≠
      emptyDeploymentPlan.SingleFlags := by
  refine ⟨rfl, by simp [emptyDeploymentPlan]⟩

/-- C1 (amended): deployment Create marshals name, type, cloud provider,
region, tier, storage size/unit, retention value/unit, deduplication
value/unit and maintenance window into the creation request, but not the
per-component flag lists, to which the request is invariant. -/
theorem createRequest_marshals_all_but_flags :
    (∀ plan : deploymentResourceModel,
      (buildDeploymentCreationRequest plan).Name = valueString plan.Name ∧
      (buildDeploymentCreationRequest plan).Typ = valueString plan.Typ ∧
      (buildDeploymentCreationRequest plan).Provider
          = valueString plan.CloudProvider ∧
      (buildDeploymentCreationRequest plan).Region = valueString plan.Region ∧
      (buildDeploymentCreationRequest plan).Tier
          = uint32OfInt64 (valueInt64 plan.Tier) ∧
      (buildDeploymentCreationRequest plan).StorageSize
          = uint64OfInt64 (valueInt64 plan.StorageSize) ∧
      (buildDeploymentCreationRequest plan).StorageSizeUnit
          = valueString plan.StorageSizeUnit ∧
      (buildDeploymentCreationRequest plan).Retention
          = uint32OfInt64 (valueInt64 plan.Retention) ∧
      (buildDeploymentCreationRequest plan).RetentionUnit
          = valueString plan.RetentionUnit ∧
      (buildDeploymentCreationRequest plan).Deduplication
          = uint32OfInt64 (valueInt64 plan.Deduplication) ∧
      (buildDeploymentCreationRequest plan).DeduplicationUnit
          = valueString plan.DeduplicationUnit ∧
      (buildDeploymentCreationRequest plan).MaintenanceWindow
          = valueString plan.MaintenanceWindow) ∧
    (∀ (plan : deploymentResourceModel) f1 f2 f3 f4,
      buildDeploymentCreationRequest
          { plan with SingleFlags := f1, SelectFlags := f2,
                      StorageFlags := f3, InsertFlags := f4 } =
        buildDeploymentCreationRequest plan) :=
  ⟨fun _ => ⟨rfl, rfl, rfl, rfl, rfl, rfl, rfl, rfl, rfl, rfl, rfl, rfl⟩,
   fun _ _ _ _ _ => rfl⟩

/-- C7: the deployment update request is built from the mutable attributes
only (invariant under type, cloud provider and region), and a successful
Update overwrites exactly version, status and access endpoint, keeping the
planned type, cloud provider, region and creation timestamp. -/
theorem updateRequest_mutable_fields_only :
    (∀ plan : deploymentResourceModel,
      (buildDeploymentUpdateRequest plan).Name = valueString plan.Name ∧
      (buildDeploymentUpdateRequest plan).Tier
          = uint32OfInt64 (valueInt64 plan.Tier) ∧
      (buildDeploymentUpdateRequest plan).StorageSize
          = uint64OfInt64 (valueInt64 plan.StorageSize) ∧
      (buildDeploymentUpdateRequest plan).StorageSizeUnit
          = valueString plan.StorageSizeUnit ∧
      (buildDeploymentUpdateRequest plan).Retention
          = uint32OfInt64 (valueInt64 plan.Retention) ∧
      (buildDeploymentUpdateRequest plan).RetentionUnit
          = valueString plan.RetentionUnit ∧
      (buildDeploymentUpdateRequest plan).Deduplication
          = uint32OfInt64 (valueInt64 plan.Deduplication) ∧
      (buildDeploymentUpdateRequest plan).DeduplicationUnit
          = valueString plan.DeduplicationUnit ∧
      (buildDeploymentUpdateRequest plan).MaintenanceWindow
          = valueString plan.MaintenanceWindow ∧
      (buildDeploymentUpdateRequest plan).Flags
          = { SingleFlags := resolveFlags plan.SingleFlags
              SelectFlags := resolveFlags plan.SelectFlags
              StorageFlags := resolveFlags plan.StorageFlags
              InsertFlags := resolveFlags plan.InsertFlags }) ∧
    (∀ (plan : deploymentResourceModel) ty cp rg,
      buildDeploymentUpdateRequest
          { plan with Typ := ty, CloudProvider := cp, Region := rg } =
        buildDeploymentUpdateRequest plan) ∧
    (∀ (plan : deploymentResourceModel) (d : DeploymentInfo),
      (deploymentUpdate plan (Except.ok d)).stateSet =
        some { plan with
          Version := some d.Version
          Status := some d.Status
          AccessEndpoint := some d.AccessEndpoint }) ∧
    (∀ (plan : deploymentResourceModel) (d : DeploymentInfo),
      ((deploymentUpdate plan (Except.ok d)).stateSet.map
          (fun m => (m.Typ, m.CloudProvider, m.Region, m.CreatedAt))) =
        some (plan.Typ, plan.CloudProvider, plan.Region, plan.CreatedAt)) :=
  ⟨fun _ => ⟨rfl, rfl, rfl, rfl, rfl, rfl, rfl, rfl, rfl, rfl⟩,
   fun _ _ _ _ => rfl, fun _ _ => rfl, fun _ _ => rfl⟩

/-- C10: on a successful token Read, `last_used_at` is the formatted API
value or null exactly as the API reports it, while `tenant_id` keeps its
prior state value unless the API tenant is non-empty; on a successful
Create, `last_used_at` keeps its planned value when the API reports no
last use. -/
theorem accessToken_lastUsed_tenant_handling :
    (∀ (s : accessTokenResourceModel) (t : AccessTokenInfo),
      ((accessTokenRead s (Except.ok t)).stateSet.map (fun m => m.LastUsedAt))
        = some (t.LastUsedAt.map formatRFC3339)) ∧
    (∀ (s : accessTokenResourceModel) (t : AccessTokenInfo),
      ((accessTokenRead s (Except.ok t)).stateSet.map (fun m => m.TenantID))
        = some (if t.TenantID ≠ [] then some t.TenantID else s.TenantID)) ∧
    (∀ (p : accessTokenResourceModel) (t : AccessTokenInfo),
      ((accessTokenCreate p (Except.ok t)).stateSet.map (fun m => m.LastUsedAt))
        = some (match t.LastUsedAt with
                | some ts => some (formatRFC3339 ts)
                | none => p.LastUsedAt)) := by
  refine ⟨fun s t => ?_, fun s t => rfl, fun p t => ?_⟩
  · cases h : t.LastUsedAt <;> simp [accessTokenRead, h]
  · cases h : t.LastUsedAt <;> simp [accessTokenCreate, h]

/-- C2: on a successful deployment Read, `storage_size` is derived from the
API `StorageSizeGb` by the unit: equal to it for unit "GB", its quotient by
1024 for unit "TB" (so a whole number of TB round-trips), and unchanged
from the prior state for a null or unrecognised unit. -/
theorem deploymentRead_storage_conversion :
    ∀ (s : deploymentResourceModel) (d : DeploymentInfo),
      d.StorageSizeGb < 2 ^ 63 →
      ((s.StorageSizeUnit = some ['G', 'B'] →
        ((deploymentRead s (Except.ok d)).stateSet.map (fun m => m.StorageSize))
          = some (some (d.StorageSizeGb : Int))) ∧
       (s.StorageSizeUnit = some ['T', 'B'] →
        ((deploymentRead s (Except.ok d)).stateSet.map (fun m => m.StorageSize))
          = some (some ((d.StorageSizeGb / 1024 : Nat) : Int))) ∧
       (∀ t : Nat, s.StorageSizeUnit = some ['T', 'B'] →
          d.StorageSizeGb = t * 1024 →
          ((deploymentRead s (Except.ok d)).stateSet.map (fun m => m.StorageSize))
            = some (some (t : Int))) ∧
       (s.StorageSizeUnit = none →
        ((deploymentRead s (Except.ok d)).stateSet.map (fun m => m.StorageSize))
          = some s.StorageSize) ∧
       (∀ u : GoStr, s.StorageSizeUnit = some u → u ≠ ['G', 'B'] →
          u ≠ ['T', 'B'] →
          ((deploymentRead s (Except.ok d)).stateSet.map (fun m => m.StorageSize))
            = some s.StorageSize)) := by
  intro s d h
  refine ⟨?_, ?_, ?_, ?_, ?_⟩
  · intro hu
    simp [deploymentRead, hu, int64OfUint_of_lt h]
  · intro hu
    have hlt : d.StorageSizeGb / 1024 < 2 ^ 63 :=
      lt_of_le_of_lt (Nat.div_le_self _ _) h
    simp [deploymentRead, hu, int64OfUint_of_lt hlt]
  · intro t hu he
    have hlt : t < 2 ^ 63 := by omega
    have hdiv : d.StorageSizeGb / 1024 = t := by omega
    simp [deploymentRead, hu, hdiv, int64OfUint_of_lt hlt]
  · intro hu
    simp [deploymentRead, hu]
  · intro u hu hg ht
    simp [deploymentRead, hu, hg, ht]

/-- C2 witness: reading 2048 GB with unit "TB" yields a storage size of 2. -/
theorem deploymentRead_storage_conversion_witness :
    sampleDeploymentInfo.StorageSizeGb < 2 ^ 63 ∧
    ((deploymentRead
        { emptyDeploymentPlan with StorageSizeUnit := some ['T', 'B'] }
        (Except.ok sampleDeploymentInfo)).stateSet.map
      (fun m => m.StorageSize)) = some (some (2 : Int)) := by
  have h : sampleDeploymentInfo.StorageSizeGb < 2 ^ 63 := by
    norm_num [sampleDeploymentInfo]
  exact ⟨h, (deploymentRead_storage_conversion _ sampleDeploymentInfo h).2.2.1 2
    rfl (by norm_num [sampleDeploymentInfo])⟩

/-- C3: rule-file Create sets `id` to `deployment_id/file_name`; importing
the composite ID of two non-empty slash-free strings recovers them exactly
(for both rule files and access tokens); and ImportState errors exactly
when the import ID does not split into two non-empty parts. -/
theorem compositeID_import_roundtrip :
    (∀ plan : ruleFileResourceModel,
      (ruleFileCreate plan (Except.ok ())).stateSet =
        some { plan with ID := some (compositeID (valueString plan.DeploymentID)
          (valueString plan.FileName)) }) ∧
    (∀ a b : GoStr, a ≠ [] → b ≠ [] → '/' ∉ a → '/' ∉ b →
      (ruleFileImportState (compositeID a b)).stateSet
          = some (a, b, compositeID a b) ∧
      (ruleFileImportState (compositeID a b)).errDiags = [] ∧
      (accessTokenImportState (compositeID a b)).stateSet = some (a, b) ∧
      (accessTokenImportState (compositeID a b)).errDiags = []) ∧
    (∀ id : GoStr,
      ((ruleFileImportState id).errDiags = [Diag.invalidImportID] ↔
        ¬ twoNonEmptyParts id) ∧
      ((accessTokenImportState id).errDiags = [Diag.invalidImportID] ↔
        ¬ twoNonEmptyParts id)) := by
  refine ⟨fun plan => rfl, fun a b ha hb hsa hsb => ?_, fun id => ?_⟩
  · have hs := goSplit_compositeID a b hsa hsb
    refine ⟨?_, ?_, ?_, ?_⟩ <;>
      simp [ruleFileImportState, accessTokenImportState, hs, ha, hb]
  · constructor
    · simp only [ruleFileImportState]
      by_cases hc : ((goSplit '/' id).length ≠ 2 ∨
          (goSplit '/' id).headD [] = [] ∨
          ((goSplit '/' id).drop 1).headD [] = [])
      · simp only [if_pos hc]
        constructor
        · intro _ htwo
          have hconj := (parts_shape (goSplit '/' id)).mpr htwo
          tauto
        · intro _
          trivial
      · simp only [if_neg hc]
        push_neg at hc
        constructor
        · intro he
          exact absurd he (by simp)
        · intro hn
          exact absurd ((parts_shape (goSplit '/' id)).mp hc) hn
    · simp only [accessTokenImportState]
      by_cases hc : ((goSplit '/' id).length ≠ 2 ∨
          (goSplit '/' id).headD [] = [] ∨
          ((goSplit '/' id).drop 1).headD [] = [])
      · simp only [if_pos hc]
        constructor
        · intro _ htwo
          have hconj := (parts_shape (goSplit '/' id)).mpr htwo
          tauto
        · intro _
          trivial
      · simp only [if_neg hc]
        push_neg at hc
        constructor
        · intro he
          exact absurd he (by simp)
        · intro hn
          exact absurd ((parts_shape (goSplit '/' id)).mp hc) hn

/-- C3 witness: importing the composite ID "d/f" recovers deployment "d"
and file "f". -/
theorem compositeID_import_roundtrip_witness :
    ((['d'] : GoStr) ≠ [] ∧ (['f'] : GoStr) ≠ [] ∧
      '/' ∉ (['d'] : GoStr) ∧ '/' ∉ (['f'] : GoStr)) ∧
    (ruleFileImportState (compositeID ['d'] ['f'])).stateSet
      = some (['d'], ['f'], compositeID ['d'] ['f']) :=
  ⟨by decide,
   (compositeID_import_roundtrip.2.1 ['d'] ['f']
     (by decide) (by decide) (by decide) (by decide)).1⟩

/-- C4: the access-token Update handler unconditionally errors with
"Update not supported", makes no client call and writes no state; however,
no attribute of the access-token schema carries a `RequiresReplace` plan
modifier (unlike the rule-file schema), so an attribute change does not
force replacement. -/
theorem accessTokenUpdate_no_replacement :
    (∀ p : accessTokenResourceModel,
      (accessTokenUpdate p).calls = [] ∧
      (accessTokenUpdate p).errDiags = [Diag.updateNotSupported] ∧
      (accessTokenUpdate p).stateSet = none) ∧
    accessTokenSchemaAttrs.all
      (fun a => !(a.planModifiers.contains PlanModifier.requiresReplace))
      = true ∧
    ruleFileSchemaAttrs.any
      (fun a => a.planModifiers.contains PlanModifier.requiresReplace)
      = true :=
  ⟨fun _ => ⟨rfl, rfl, rfl⟩, by decide, by decide⟩

/-- C5: every resource and data-source operation performs at most one client
call, adds an error diagnostic and leaves the state unset when that call
fails, and sets the state only on success (the access-token Update makes no
call at all and never sets the state). -/
theorem single_call_atomicity :
    atomicOp deploymentCreate ∧ atomicOp deploymentRead ∧
    atomicOp deploymentUpdate ∧ atomicOp deploymentDelete ∧
    atomicOp accessTokenCreate ∧ atomicOp accessTokenRead ∧
    atomicOp accessTokenDelete ∧
    atomicOp ruleFileCreate ∧ atomicOp ruleFileRead ∧
    atomicOp ruleFileUpdate ∧ atomicOp ruleFileDelete ∧
    atomicOp (fun (_ : Unit) => cloudProvidersRead) ∧
    atomicOp (fun (_ : Unit) => regionsRead) ∧
    atomicOp (fun (_ : Unit) => tiersRead) ∧
    atomicOp (fun (_ : Unit) => deploymentsRead) ∧
    atomicOp deploymentDataSourceRead ∧
    (∀ p : accessTokenResourceModel,
      (accessTokenUpdate p).calls.length ≤ 1 ∧
      (accessTokenUpdate p).stateSet = none) := by
  refine ⟨?_, ?_, ?_, ?_, ?_, ?_, ?_, ?_, ?_, ?_, ?_, ?_, ?_, ?_, ?_, ?_, ?_⟩
  case _ => intro p r; cases r <;> simp [deploymentCreate, exceptIsOk]
  case _ => intro p r; cases r <;> simp [deploymentRead, exceptIsOk]
  case _ => intro p r; cases r <;> simp [deploymentUpdate, exceptIsOk]
  case _ => intro p r; cases r <;> simp [deploymentDelete, exceptIsOk]
  case _ => intro p r; cases r <;> simp [accessTokenCreate, exceptIsOk]
  case _ => intro p r; cases r <;> simp [accessTokenRead, exceptIsOk]
  case _ => intro p r; cases r <;> simp [accessTokenDelete, exceptIsOk]
  case _ => intro p r; cases r <;> simp [ruleFileCreate, exceptIsOk]
  case _ => intro p r; cases r <;> simp [ruleFileRead, exceptIsOk]
  case _ => intro p r; cases r <;> simp [ruleFileUpdate, exceptIsOk]
  case _ => intro p r; cases r <;> simp [ruleFileDelete, exceptIsOk]
  case _ => intro p r; cases r <;> simp [cloudProvidersRead, exceptIsOk]
  case _ => intro p r; cases r <;> simp [regionsRead, exceptIsOk]
  case _ => intro p r; cases r <;> simp [tiersRead, exceptIsOk]
  case _ => intro p r; cases r <;> simp [deploymentsRead, exceptIsOk]
  case _ => intro p r; cases r <;> simp [deploymentDataSourceRead, exceptIsOk]
  case _ => intro p; exact ⟨by simp [accessTokenUpdate], rfl⟩

/-- C5 witness: a failed deployment Create sets no state. -/
theorem single_call_atomicity_witness :
    exceptIsOk (Except.error { msg := [] } : Except ApiErr DeploymentInfo)
        = false ∧
    (deploymentCreate emptyDeploymentPlan
      (Except.error { msg := [] })).stateSet = none :=
  ⟨rfl, ((single_call_atomicity.1 emptyDeploymentPlan
      (Except.error { msg := [] })).2.1 rfl).2⟩

/-- C6 counterexample: importing the malformed ID "abc" yields the locally
generated Invalid Import ID diagnostic without any client call, so not
every error diagnostic originates from a failed remote API call. -/
theorem importState_local_validation :
    (ruleFileImportState ['a', 'b', 'c']).errDiags = [Diag.invalidImportID] ∧
    (ruleFileImportState ['a', 'b', 'c']).calls = [] := by
  exact ⟨by decide, by decide⟩

/-- C6 (amended): every API-backed operation produces error diagnostics only
when its client call failed; the only locally generated diagnostics are the
Invalid Import ID format check of the two ImportState methods (which makes
no client call), the unconditional Update-not-supported diagnostic of the
access-token resource, and Configure's missing-API-key check. -/
theorem errors_only_from_api :
    apiErrorOnly deploymentCreate ∧ apiErrorOnly deploymentRead ∧
    apiErrorOnly deploymentUpdate ∧ apiErrorOnly deploymentDelete ∧
    apiErrorOnly accessTokenCreate ∧ apiErrorOnly accessTokenRead ∧
    apiErrorOnly accessTokenDelete ∧ apiErrorOnly ruleFileCreate ∧
    apiErrorOnly ruleFileRead ∧ apiErrorOnly ruleFileUpdate ∧
    apiErrorOnly ruleFileDelete ∧
    apiErrorOnly (fun (_ : Unit) => cloudProvidersRead) ∧
    apiErrorOnly (fun (_ : Unit) => regionsRead) ∧
    apiErrorOnly (fun (_ : Unit) => tiersRead) ∧
    apiErrorOnly (fun (_ : Unit) => deploymentsRead) ∧
    apiErrorOnly deploymentDataSourceRead ∧
    (∀ id : GoStr, (ruleFileImportState id).errDiags ≠ [] →
      (ruleFileImportState id).errDiags = [Diag.invalidImportID] ∧
      (ruleFileImportState id).calls = []) ∧
    (∀ id : GoStr, (accessTokenImportState id).errDiags ≠ [] →
      (accessTokenImportState id).errDiags = [Diag.invalidImportID] ∧
      (accessTokenImportState id).calls = []) ∧
    (∀ id : GoStr, (deploymentImportState id).errDiags = []) ∧
    (∀ p : accessTokenResourceModel,
      (accessTokenUpdate p).errDiags = [Diag.updateNotSupported]) ∧
    (∀ ck cb ek eb r, (providerConfigure ck cb ek eb r).errDiags ≠ [] →
      ((providerConfigure ck cb ek eb r).errDiags = [Diag.missingApiKey] ∧
        resolveConfig ck ek = []) ∨
      ((providerConfigure ck cb ek eb r).errDiags
          = [Diag.unableToCreateClient] ∧
        exceptIsOk r = false)) := by
  refine ⟨?_, ?_, ?_, ?_, ?_, ?_, ?_, ?_, ?_, ?_, ?_, ?_, ?_, ?_, ?_, ?_,
    ?_, ?_, ?_, ?_, ?_⟩
  case _ => intro p r; cases r <;> simp [deploymentCreate, exceptIsOk]
  case _ => intro p r; cases r <;> simp [deploymentRead, exceptIsOk]
  case _ => intro p r; cases r <;> simp [deploymentUpdate, exceptIsOk]
  case _ => intro p r; cases r <;> simp [deploymentDelete, exceptIsOk]
  case _ => intro p r; cases r <;> simp [accessTokenCreate, exceptIsOk]
  case _ => intro p r; cases r <;> simp [accessTokenRead, exceptIsOk]
  case _ => intro p r; cases r <;> simp [accessTokenDelete, exceptIsOk]
  case _ => intro p r; cases r <;> simp [ruleFileCreate, exceptIsOk]
  case _ => intro p r; cases r <;> simp [ruleFileRead, exceptIsOk]
  case _ => intro p r; cases r <;> simp [ruleFileUpdate, exceptIsOk]
  case _ => intro p r; cases r <;> simp [ruleFileDelete, exceptIsOk]
  case _ => intro p r; cases r <;> simp [cloudProvidersRead, exceptIsOk]
  case _ => intro p r; cases r <;> simp [regionsRead, exceptIsOk]
  case _ => intro p r; cases r <;> simp [tiersRead, exceptIsOk]
  case _ => intro p r; cases r <;> simp [deploymentsRead, exceptIsOk]
  case _ => intro p r; cases r <;> simp [deploymentDataSourceRead, exceptIsOk]
  case _ =>
    intro id
    simp only [ruleFileImportState]
    split
    · simp
    · simp
  case _ =>
    intro id
    simp only [accessTokenImportState]
    split
    · simp
    · simp
  case _ => intro id; rfl
  case _ => intro p; rfl
  case _ =>
    intro ck cb ek eb r
    by_cases hk : resolveConfig ck ek = []
    · simp [providerConfigure, hk]
    · cases r <;> simp [providerConfigure, hk, exceptIsOk]

/-- C6 witness for the amended claim: an errored deployment Read has failed
its API call. -/
theorem errors_only_from_api_witness :
    (deploymentRead emptyDeploymentPlan
      (Except.error { msg := [] })).errDiags ≠ [] ∧
    exceptIsOk (Except.error { msg := [] } : Except ApiErr DeploymentInfo)
      = false :=
  ⟨by simp [deploymentRead],
   errors_only_from_api.2.1 emptyDeploymentPlan (Except.error { msg := [] })
     (by simp [deploymentRead])⟩

/-- C8: each catalog data source Read makes exactly the one List call, maps
the response to state elementwise in order, and never invokes a mutating
client method. -/
theorem catalog_data_sources_passthrough :
    (∀ l : List CloudProviderInfo,
      (cloudProvidersRead (Except.ok l)).calls
          = [ClientCall.listCloudProviders] ∧
      (cloudProvidersRead (Except.ok l)).stateSet
          = some (l.map cloudProviderModelOfInfo) ∧
      (l.map cloudProviderModelOfInfo).length = l.length ∧
      ∀ i : Nat, (l.map cloudProviderModelOfInfo).get? i
          = (l.get? i).map cloudProviderModelOfInfo) ∧
    (∀ l : List RegionInfo,
      (regionsRead (Except.ok l)).calls = [ClientCall.listRegions] ∧
      (regionsRead (Except.ok l)).stateSet = some (l.map regionModelOfInfo) ∧
      (l.map regionModelOfInfo).length = l.length ∧
      ∀ i : Nat, (l.map regionModelOfInfo).get? i
          = (l.get? i).map regionModelOfInfo) ∧
    (∀ l : List TierInfo,
      (tiersRead (Except.ok l)).calls = [ClientCall.listTiers] ∧
      (tiersRead (Except.ok l)).stateSet = some (l.map tierModelOfInfo) ∧
      (l.map tierModelOfInfo).length = l.length ∧
      ∀ i : Nat, (l.map tierModelOfInfo).get? i
          = (l.get? i).map tierModelOfInfo) ∧
    (∀ r, ((cloudProvidersRead r).calls.all
        (fun c => ! c.isMutating)) = true) ∧
    (∀ r, ((regionsRead r).calls.all (fun c => ! c.isMutating)) = true) ∧
    (∀ r, ((tiersRead r).calls.all (fun c => ! c.isMutating)) = true) := by
  refine ⟨?_, ?_, ?_, ?_, ?_, ?_⟩
  case _ => intro l; exact ⟨rfl, rfl, by simp, fun i => by simp⟩
  case _ => intro l; exact ⟨rfl, rfl, by simp, fun i => by simp⟩
  case _ => intro l; exact ⟨rfl, rfl, by simp, fun i => by simp⟩
  case _ => intro r; cases r <;> rfl
  case _ => intro r; cases r <;> rfl
  case _ => intro r; cases r <;> rfl

/-- C9: a non-null configured api_key / base_url overrides the environment
value even when empty; the Missing API Key error (with no constructor call)
occurs exactly when the resolved api_key is empty; and when the constructor
is called, `WithBaseURL` is passed exactly when the resolved base URL is
non-empty. -/
theorem providerConfigure_precedence :
    (∀ (v env : GoStr), resolveConfig (some v) env = v) ∧
    (∀ env : GoStr, resolveConfig none env = env) ∧
    (∀ ck cb ek eb r,
      ((Diag.missingApiKey ∈ (providerConfigure ck cb ek eb r).errDiags ∧
        (providerConfigure ck cb ek eb r).newCall = none) ↔
        resolveConfig ck ek = [])) ∧
    (∀ ck cb ek eb r, resolveConfig ck ek ≠ [] →
      ((providerConfigure ck cb ek eb r).passesWithBaseURL = true ↔
        resolveConfig cb eb ≠ [])) := by
  refine ⟨fun v env => rfl, fun env => rfl, ?_, ?_⟩
  · intro ck cb ek eb r
    by_cases hk : resolveConfig ck ek = []
    · simp [providerConfigure, hk]
    · cases r <;> simp [providerConfigure, hk]
  · intro ck cb ek eb r hk
    by_cases hb : resolveConfig cb eb = []
    · cases r <;>
        simp [providerConfigure, ConfigureOut.passesWithBaseURL, hk, hb]
    · cases r <;>
        simp [providerConfigure, ConfigureOut.passesWithBaseURL, hk, hb]

/-- C9 witness: a configured api_key "k" and base_url "u" with empty
environment values lead to a constructor call carrying `WithBaseURL`. -/
theorem providerConfigure_precedence_witness :
    resolveConfig (some ['k']) [] ≠ [] ∧
    (providerConfigure (some ['k']) (some ['u']) [] []
      (Except.ok ())).passesWithBaseURL = true :=
  ⟨by decide,
   (providerConfigure_precedence.2.2.2 (some ['k']) (some ['u']) [] []
     (Except.ok ()) (by decide)).mpr (by decide)⟩
